import Mathlib

/-!
Shallow embedding of drivers/video/fb_devns.c (device-namespace framebuffer
multiplexing) together with include/linux/fb_devns.h.

Modelling conventions:
* `struct fb_ns_info` together with the per-namespace virtual `struct fb_info`
  (`fb_virt`) is flattened into `FbNsInfo`.  The staged palette array
  `colreg[0 .. colreg_pos)` is represented by the list `colreg`
  (so `colreg_pos = colreg.length`); `colreg_len` keeps the capacity.
  `vmem_buf` is the backing buffer (`fb_virt->screen_base` aliases it and is
  never changed after allocation, so one field suffices); `smem_len` is
  `fb_virt->fix.smem_len` (equal to `vmem_len` by construction).
* Machine integers: `__u16`/`__u32` stores truncate with `% 2^16` / `% 2^32`;
  error codes and reference counts are `Int` (-ENOMEM = -12).
* Kernel allocation outcomes are passed as explicit `allocOk : Bool` oracles;
  the result of `do_fb_ns_remap` for one tracked inode is passed as an oracle
  `remapRet : Nat → Int`, because its body only manipulates external
  address-space state (vma trees, mm semaphores) of the consumer; likewise the
  hardware driver's `fb_setcolreg` return code is the oracle
  `scRet : FbColreg → Int`.
* Calls that cross into hardware, buffer copies and frees are recorded as
  events (`FbEv`, `LifeEv`) so that ordering and at-most-once properties can
  be stated; `BUG()` aborts are modelled by explicit fatal result values.
-/

namespace FbNs

/-- Geometry request (the parts of `struct fb_var_screeninfo` the code reads:
`xres` doubles as the there-is-a-pending-mode-change sentinel). -/
structure FbVar where
  xres : Nat
  yres : Nat
deriving DecidableEq, Repr

/-- `struct fb_colreg` (fb_devns.c lines 71-77): one staged palette update. -/
structure FbColreg where
  regno : Nat
  red : Nat
  green : Nat
  blue : Nat
  transp : Nat
deriving DecidableEq, Repr

/-- `struct fb_inode` (lines 66-69): a tracked consumer with its use count. -/
structure FbInode where
  inode : Nat
  count : Int
deriving DecidableEq, Repr

/-- Flattened `struct fb_ns_info` + virtual `struct fb_info` state (lines
79-98 and the fields of `fb_virt` that `fb_ns_info_alloc` initializes).
`id` is a ghost identity for the allocated object; `count` is
`fb_virt->count`; `node` is `fb_virt->node`. -/
structure FbNsInfo where
  id : Nat
  node : Nat
  count : Int
  smem_len : Nat
  var : FbVar
  colreg : List FbColreg
  colreg_len : Nat
  vmem_buf : Option (List Nat)
  inodes : List FbInode
deriving DecidableEq, Repr

/-- Events of a context switch that touch hardware or buffers. -/
inductive FbEv where
  | remap (inode : Nat)
  | copyToHw
  | copyFromHw
  | hwSetcolreg (regno red green blue transp : Nat)
  | hwSetPar (xres yres : Nat)
deriving DecidableEq, Repr

/-- Deallocation steps performed by `fb_ns_info_free` (lines 566-579). -/
inductive LifeEv where
  | vfreeVmem
  | kfreeColreg
  | freeFbops
  | fbRelease
deriving DecidableEq, Repr

/-- `struct fb_dev_ns` (lines 100-103): per-namespace table of shadows keyed
by hardware device index (`fb[FB_MAX]`; the C code indexes it with
`fb_info->node` without a bounds check, so the table is total here). -/
structure FbDevNs where
  fb : Nat → Option FbNsInfo

/-- Result of an operation that may hit a `BUG()` consistency abort. -/
inductive FbBug (α : Type) where
  | ok (a : α)
  | bug

/-- A device handle as the dispatch layer sees it: either a hardware
`fb_info` (no `FBINFO_DEV_NS` flag) or a virtual one, carrying its owning
`dev_ns` identity and the node of the hardware device it shadows. -/
inductive FbHandle where
  | info (node : Nat)
  | virt (dev_ns : Nat) (node : Nat)
deriving DecidableEq, Repr

/-- `fb_info_is_virt` (lines 110-113): tests `flags & FBINFO_DEV_NS`. -/
def fb_info_is_virt : FbHandle → Bool
  | .info _ => false
  | .virt _ _ => true

/-- `fb_virt_is_active` (lines 242-252): a non-virtual info is never
"active"; a virtual one is active when its namespace is the currently
active namespace or is `init_dev_ns`.  `activeNs` and `initNs` stand for
`is_active_dev_ns` and `&init_dev_ns`, owned by the namespace manager. -/
def fb_virt_is_active (activeNs : Nat → Bool) (initNs : Nat) : FbHandle → Bool
  | .info _ => false
  | .virt d _ => activeNs d || d == initNs

/-- `fb_virt_to_info` (lines 255-279): unwrap a virtual info to the
underlying hardware info; the identity on a non-virtual info. -/
def fb_virt_to_info : FbHandle → FbHandle
  | .info n => .info n
  | .virt _ n => .info n

/-- `fb_virt_to_info_ns` (lines 282-291): unwrap only when active. -/
def fb_virt_to_info_ns (activeNs : Nat → Bool) (initNs : Nat)
    (h : FbHandle) : FbHandle :=
  if fb_virt_is_active activeNs initNs h then fb_virt_to_info h else h

/-- `find_fb_inode` (lines 298-312): linear scan for a tracked inode. -/
def find_fb_inode : List FbInode → Nat → Option FbInode
  | [], _ => none
  | e :: rest, nd => if e.inode = nd then some e else find_fb_inode rest nd

/-- Position of the entry `find_fb_inode` returns (the C function returns a
pointer into the array; we need its index to mirror the in-place update). -/
def findFbInodeIdx : List FbInode → Nat → Option Nat
  | [], _ => none
  | e :: rest, nd =>
      if e.inode = nd then some 0 else (findFbInodeIdx rest nd).map (· + 1)

/-- Outcome of `untrack_fb_inode`: whether `fb_ns_mutex` was taken, whether
the `BUG_ON(!fb_inode)` consistency abort fired, and the resulting
tracked-inode array. -/
structure UntrackRes where
  lockTaken : Bool
  fault : Bool
  inodes : List FbInode
deriving DecidableEq, Repr

/-- `untrack_fb_inode` (lines 348-372).  A null inode returns before the
mutex is taken.  Otherwise the entry is looked up; a missing entry is
`BUG_ON(!fb_inode)`.  On decrement-to-zero the entry is overwritten with the
last array element and the length shrinks by one. -/
def untrack_fb_inode (s : List FbInode) (inode : Option Nat) : UntrackRes :=
  match inode with
  | none => ⟨false, false, s⟩
  | some nd =>
    match findFbInodeIdx s nd with
    | none => ⟨true, true, s⟩
    | some i =>
      let e := (s.get? i).getD ⟨nd, 0⟩
      let c := e.count - 1
      if c = 0 then
        let last := (s.get? (s.length - 1)).getD e
        ⟨true, false, (s.set i last).dropLast⟩
      else
        ⟨true, false, s.set i { e with count := c }⟩

/-- Hardware `fb_info` descriptor pieces read during shadow creation. -/
structure HwFb where
  node : Nat
  smem_len : Nat
deriving DecidableEq, Repr

/-- The shadow produced by `fb_ns_info_alloc` (lines 486-564): refcount 0,
geometry copied from hardware, zero-filled backing buffer only when
`smem_len > 0` (otherwise `vmem` stays NULL), `colreg_pos = colreg_len = 0`,
staged `var` zeroed (the `par` area is zero-allocated), no tracked inodes. -/
def freshShadow (nextId : Nat) (hw : HwFb) : FbNsInfo :=
  { id := nextId
    node := hw.node
    count := 0
    smem_len := hw.smem_len
    var := { xres := 0, yres := 0 }
    colreg := []
    colreg_len := 0
    vmem_buf := if hw.smem_len > 0 then some (List.replicate hw.smem_len 0) else none
    inodes := [] }

/-- `fb_ns_info_alloc` with its allocation outcomes collapsed into
`allocOk` (framebuffer_alloc / allocate_backbuffer / fb_ns_make_fb_ops);
every failure path frees what was built and returns NULL. -/
def fb_ns_info_alloc (nextId : Nat) (allocOk : Bool) (hw : HwFb) :
    Option FbNsInfo :=
  if allocOk then some (freshShadow nextId hw) else none

/-- `fb_ns_info_free` (lines 566-579): vfree the backing buffer, kfree the
staged palette array, free the copied fbops, release the framebuffer. -/
def fb_ns_info_free (_v : FbNsInfo) : List LifeEv :=
  [.vfreeVmem, .kfreeColreg, .freeFbops, .fbRelease]

/-- `get_fb_info_ns` (lines 586-622): under `fb_ns_mutex`, lazily allocate
the slot `fb[idx]` if empty, then increment the shadow's refcount and return
it; `ERR_PTR(-ENOMEM)` when the slot is still NULL.  (`get_fb_ns_cur`, the
namespace-level refcount, is outside this subsystem and not modelled.)
`nextId` threads the ghost identity for fresh objects. -/
def get_fb_info_ns (ns : FbDevNs) (nextId : Nat) (allocOk : Bool) (hw : HwFb) :
    FbDevNs × Nat × Except Int FbNsInfo :=
  match ns.fb hw.node with
  | none =>
    match fb_ns_info_alloc nextId allocOk hw with
    | some v =>
        let v1 := { v with count := v.count + 1 }
        (⟨fun j => if j = hw.node then some v1 else ns.fb j⟩, nextId + 1,
         Except.ok v1)
    | none => (ns, nextId, Except.error (-12))
  | some v =>
      let v1 := { v with count := v.count + 1 }
      (⟨fun j => if j = hw.node then some v1 else ns.fb j⟩, nextId,
       Except.ok v1)

/-- `put_fb_info_ns` (lines 624-637): decrement the refcount; on reaching
zero clear the namespace table slot and free the shadow.  The C function
receives the shadow pointer, which aliases the table slot `fb[virt->node]`;
the aliasing is made explicit by addressing the slot `idx`. -/
def put_fb_info_ns (ns : FbDevNs) (idx : Nat) : FbDevNs × List LifeEv :=
  match ns.fb idx with
  | some v =>
      let c := v.count - 1
      if c = 0 then
        (⟨fun j => if j = idx then none else ns.fb j⟩, fb_ns_info_free v)
      else
        (⟨fun j => if j = idx then some { v with count := c } else ns.fb j⟩, [])
  | none => (ns, [])

/-- `fb_ns_open` (line 642): `{ BUG(); }` - must never be reached. -/
def fb_ns_open (_virt : FbHandle) (_user : Int) : FbBug Int := .bug

/-- `fb_ns_release` (line 643): `{ BUG(); }` - must never be reached. -/
def fb_ns_release (_virt : FbHandle) (_user : Int) : FbBug Int := .bug

/-- `fb_ns_destroy` (line 644): `{ BUG(); }` - must never be reached. -/
def fb_ns_destroy (_virt : FbHandle) : FbBug Unit := .bug

/-- `fb_ns_set_par` (lines 666-683): stash the requested parameters
(`virt->var`, here the argument `g`) into `fb_ns_info->var` for later, when
the fb becomes active; return 0. -/
def fb_ns_set_par (g : FbVar) (s : FbNsInfo) : Int × FbNsInfo :=
  (0, { s with var := g })

/-- `fb_ns_setcolreg` (lines 685-722).  When the staged array is full
(`colreg_pos == colreg_len`, which includes the fresh 0/0 state) the code
krealloc's to `colreg_pos + 256` entries - but the stray semicolon in
`if (colreg == NULL);` makes the following `return -ENOMEM;` unconditional,
so the grow branch always fails (even when `allocOk` holds; the two lines
that would store the new array and capacity are dead).  Otherwise the entry
is appended at `colreg_pos` (fields truncated to their C widths) and 0 is
returned. -/
def fb_ns_setcolreg (regno red green blue transp : Nat) (_allocOk : Bool)
    (s : FbNsInfo) : Except Int FbNsInfo :=
  if s.colreg.length = s.colreg_len then
    Except.error (-12)
  else
    Except.ok { s with colreg := s.colreg ++
      [{ regno := regno % 4294967296
         red := red % 65536
         green := green % 65536
         blue := blue % 65536
         transp := transp % 65536 }] }

/-- Loop body of `fb_ns_apply_colreg` (lines 932-942): call the hardware
`fb_setcolreg` for each staged entry in submission order, keep the first
negative return (`if (ret < 0 && !err) err = ret;`), and record each call. -/
def applyColregGo (scRet : FbColreg → Int) :
    List FbColreg → Int → Int × List FbEv
  | [], err => (err, [])
  | c :: rest, err =>
      let ret := scRet c
      let res := applyColregGo scRet rest
        (if ret < 0 ∧ err = 0 then ret else err)
      (res.1, FbEv.hwSetcolreg c.regno c.red c.green c.blue c.transp :: res.2)

/-- `fb_ns_apply_colreg` (lines 918-948): replay every staged entry against
hardware, then reset `colreg_pos` to 0 (the staged queue becomes empty)
regardless of errors; return the first error. -/
def fb_ns_apply_colreg (scRet : FbColreg → Int) (s : FbNsInfo) :
    Int × FbNsInfo × List FbEv :=
  let r := applyColregGo scRet s.colreg 0
  (r.1, { s with colreg := [] }, r.2)

/-- `fb_ns_apply_setpar` (lines 950-976).  Line 962 is an unconditional
`return 0;` placed before the pending-mode check, so the body that would
copy `fb_ns_info->var` to hardware, call `fb_set_par` and clear the sentinel
is dead code: the staged mode change is never applied and never cleared. -/
def fb_ns_apply_setpar (s : FbNsInfo) : Int × FbNsInfo × List FbEv :=
  (0, s, [])

/-- Outcome of `fb_ns_swap_vmem`: the two buffer contents and the copy
events performed. -/
structure VmemOut where
  hwScreen : Option (List Nat)
  vmem_buf : Option (List Nat)
  evs : List FbEv
deriving DecidableEq, Repr

/-- `fb_ns_swap_vmem` (lines 982-1019): do nothing when `smem_len` is zero
or either `info->screen_base` or `virt->screen_base` is NULL (the guard
precedes every dereference); otherwise copy `smem_len` bytes from the
backing buffer to the hardware buffer on activate, or back on deactivate
(the optional `fb_sync` barrier does not change contents). -/
def fb_ns_swap_vmem (hwScreen : Option (List Nat)) (s : FbNsInfo)
    (activate : Bool) : VmemOut :=
  match hwScreen, s.vmem_buf with
  | some hs, some vs =>
      if s.smem_len = 0 then ⟨some hs, some vs, []⟩
      else if activate then
        ⟨some (vs.take s.smem_len ++ hs.drop s.smem_len), some vs,
         [FbEv.copyToHw]⟩
      else
        ⟨some hs, some (hs.take s.smem_len ++ vs.drop s.smem_len),
         [FbEv.copyFromHw]⟩
  | hs, vs => ⟨hs, vs, []⟩

/-- Loop of `fb_ns_swap_mmap` (lines 1127-1134): call `do_fb_ns_remap` for
every tracked inode in order; the accumulator update is the source's
`if (ret < 0 || !err) err = ret;`. -/
def swapMmapGo (remapRet : Nat → Int) :
    List FbInode → Int → Int × List FbEv
  | [], err => (err, [])
  | nd :: rest, err =>
      let ret := remapRet nd.inode
      let res := swapMmapGo remapRet rest
        (if ret < 0 ∨ err = 0 then ret else err)
      (res.1, FbEv.remap nd.inode :: res.2)

/-- `fb_ns_swap_mmap` (lines 1118-1137): iterate the tracked inodes (the
`activate` argument is unused in the source as well). -/
def fb_ns_swap_mmap (remapRet : Nat → Int) (s : FbNsInfo) :
    Int × List FbEv :=
  swapMmapGo remapRet s.inodes 0

/-- Result of `do_fb_activate_ns`: return code, hardware buffer contents,
shadow state, and the hardware/buffer events in execution order. -/
structure ActOut where
  ret : Int
  hwScreen : Option (List Nat)
  s : FbNsInfo
  evs : List FbEv
deriving DecidableEq, Repr

/-- `do_fb_activate_ns` (lines 1139-1185): first re-point the tracked
mappings (`fb_ns_swap_mmap`); on a negative result return it at once
(lines 1148-1149) - the copy and the replay never run.  Otherwise copy
buffer contents (`fb_ns_swap_vmem`), and on activation replay the staged
palette and mode change, both return values discarded; return 0.  (The
`CONFIG_FB_DEV_NS_PAN` pan call is compiled out.) -/
def do_fb_activate_ns (remapRet : Nat → Int) (scRet : FbColreg → Int)
    (hwScreen : Option (List Nat)) (s : FbNsInfo) (activate : Bool) :
    ActOut :=
  let m := fb_ns_swap_mmap remapRet s
  if m.1 < 0 then ⟨m.1, hwScreen, s, m.2⟩
  else
    let v := fb_ns_swap_vmem hwScreen s activate
    let s1 := { s with vmem_buf := v.vmem_buf }
    if activate then
      let c := fb_ns_apply_colreg scRet s1
      let p := fb_ns_apply_setpar c.2.1
      ⟨0, v.hwScreen, p.2.1, m.2 ++ v.evs ++ c.2.2 ++ p.2.2⟩
    else
      ⟨0, v.hwScreen, s1, m.2 ++ v.evs⟩

/-- First strictly negative entry of a list of return codes, or 0. -/
def firstNegErr : List Int → Int
  | [] => 0
  | r :: rest => if r < 0 then r else firstNegErr rest

/-- Last strictly negative entry of a list of return codes, or `d`. -/
def lastNegOr (d : Int) : List Int → Int
  | [] => d
  | r :: rest => if r < 0 then lastNegOr r rest else lastNegOr d rest

/-- Phase a switch event belongs to under CLAIM C1's ordering (copy first,
then mapping re-point, then pending-state drain).  Taken from the claim's
words, to state that ordering as a predicate on executed traces. -/
def evPhaseClaimC1 : FbEv → Nat
  | .copyToHw => 0
  | .copyFromHw => 0
  | .remap _ => 1
  | .hwSetcolreg _ _ _ _ _ => 2
  | .hwSetPar _ _ => 2

/-- The trace is ordered as claim C1 states (non-decreasing phases). -/
def activateOrderClaimC1 : List FbEv → Bool
  | [] => true
  | [_] => true
  | a :: b :: t =>
      decide (evPhaseClaimC1 a ≤ evPhaseClaimC1 b)
        && activateOrderClaimC1 (b :: t)

/-- The events of the re-point loop: every tracked inode is visited, in
order, whatever the error accumulator holds. -/
theorem swapMmapGo_evs (r : Nat → Int) :
    ∀ (l : List FbInode) (err : Int),
      (swapMmapGo r l err).2 = l.map (fun nd => FbEv.remap nd.inode) := by
  intro l
  induction l with
  | nil => intro err; rfl
  | cons nd rest ih => intro err; simp [swapMmapGo, ih]

/-- The error the re-point loop accumulates, when every per-consumer result
is non-positive (as `do_fb_ns_remap` guarantees), is the last strictly
negative result, or the initial accumulator if none failed. -/
theorem swapMmapGo_err (r : Nat → Int) :
    ∀ (l : List FbInode) (err : Int),
      (∀ nd ∈ l, r nd.inode ≤ 0) →
      (swapMmapGo r l err).1 = lastNegOr err (l.map fun nd => r nd.inode) := by
  intro l
  induction l with
  | nil => intro err _; rfl
  | cons nd rest ih =>
    intro err h
    have hnd : r nd.inode ≤ 0 := h nd (List.mem_cons_self nd rest)
    have hrest : ∀ x ∈ rest, r x.inode ≤ 0 :=
      fun x hx => h x (List.mem_cons_of_mem nd hx)
    by_cases hneg : r nd.inode < 0
    · simp only [swapMmapGo, List.map, lastNegOr, if_pos hneg,
        if_pos (Or.inl hneg)]
      exact ih (r nd.inode) hrest
    · have hz : r nd.inode = 0 := le_antisymm hnd (not_lt.mp hneg)
      simp only [swapMmapGo, List.map, lastNegOr, hz, if_neg hneg]
      by_cases herr : err = 0
      · simp only [herr, if_pos (Or.inr rfl)]
        simpa [hz] using ih 0 hrest
      · have : ¬((0 : Int) < 0 ∨ err = 0) := by
          intro hc; rcases hc with hc | hc
          · exact absurd hc (by omega)
          · exact herr hc
        rw [if_neg (by simpa [hz] using this)]
        exact ih err hrest

/-- The events of the palette replay loop: every staged entry is pushed to
hardware, in submission order, whatever the error accumulator holds. -/
theorem applyColregGo_evs (f : FbColreg → Int) :
    ∀ (cs : List FbColreg) (err : Int),
      (applyColregGo f cs err).2 =
        cs.map (fun c => FbEv.hwSetcolreg c.regno c.red c.green c.blue c.transp) := by
  intro cs
  induction cs with
  | nil => intro err; rfl
  | cons c rest ih => intro err; simp [applyColregGo, ih]

/-- The error the palette replay accumulates: the first negative hardware
return code (later failures are kept out by the `!err` test). -/
theorem applyColregGo_err (f : FbColreg → Int) :
    ∀ (cs : List FbColreg) (err : Int),
      (applyColregGo f cs err).1 =
        if err = 0 then firstNegErr (cs.map f) else err := by
  intro cs
  induction cs with
  | nil =>
    intro err
    by_cases h : err = 0 <;> simp [applyColregGo, firstNegErr, h]
  | cons c rest ih =>
    intro err
    by_cases h1 : err = 0
    · by_cases h2 : f c < 0
      · have h3 : f c ≠ 0 := by omega
        simp [applyColregGo, firstNegErr, ih, h1, h2, h3]
      · simp [applyColregGo, firstNegErr, ih, h1, h2]
    · simp [applyColregGo, ih, h1]

/-- A scan that finds nothing yields no index either. -/
theorem findFbInodeIdx_none_of_find_none :
    ∀ (s : List FbInode) (nd : Nat),
      find_fb_inode s nd = none → findFbInodeIdx s nd = none := by
  intro s nd
  induction s with
  | nil => intro _; rfl
  | cons e rest ih =>
    intro h
    by_cases he : e.inode = nd
    · simp [find_fb_inode, he] at h
    · simp only [find_fb_inode, if_neg he] at h
      simp [findFbInodeIdx, if_neg he, ih h]

/-- Degenerate buffers make the copy a no-op with no events. -/
theorem fb_ns_swap_vmem_degenerate (hwScreen : Option (List Nat))
    (s : FbNsInfo) (activate : Bool)
    (h : s.smem_len = 0 ∨ hwScreen = none ∨ s.vmem_buf = none) :
    fb_ns_swap_vmem hwScreen s activate = ⟨hwScreen, s.vmem_buf, []⟩ := by
  unfold fb_ns_swap_vmem
  match hhw : hwScreen, hv : s.vmem_buf with
  | some hs, some vs =>
      rcases h with h | h | h
      · simp [h]
      · simp [hhw] at h
      · simp [hv] at h
  | none, vs => simp
  | some hs, none => simp

/-- C3: the activation drain replays every staged palette entry against the
hardware operation in exactly the original submission order (the event trace
is the staged list, mapped), continues past individual entry failures (every
entry appears in the trace no matter which return codes are negative),
reports only the first error encountered, and resets the staged palette
queue to empty regardless of outcome. -/
theorem colreg_drain_order_first_error_reset (scRet : FbColreg → Int)
    (s : FbNsInfo) :
    (fb_ns_apply_colreg scRet s).2.2 =
      s.colreg.map
        (fun c => FbEv.hwSetcolreg c.regno c.red c.green c.blue c.transp) ∧
    (fb_ns_apply_colreg scRet s).1 = firstNegErr (s.colreg.map scRet) ∧
    (fb_ns_apply_colreg scRet s).2.1 = { s with colreg := [] } := by
  refine ⟨?_, ?_, rfl⟩
  · simp [fb_ns_apply_colreg, applyColregGo_evs]
  · simp [fb_ns_apply_colreg, applyColregGo_err]

/-- C4 (code bug): evaluating `fb_ns_setcolreg` at the failing input - the
very first staged update on a freshly allocated shadow (zero capacity), with
the storage allocation succeeding - returns -ENOMEM and stages nothing: the
stray semicolon in `if (colreg == NULL);` makes the `return -ENOMEM`
unconditional whenever the grow path runs, while the claim (and the spec)
say the entry is appended and success returned, failing only when the
allocation itself fails. -/
theorem setcolreg_first_stage_returns_enomem :
    fb_ns_info_alloc 7 true { node := 0, smem_len := 4 } =
      some (freshShadow 7 { node := 0, smem_len := 4 }) ∧
    fb_ns_setcolreg 3 255 0 0 255 true
      (freshShadow 7 { node := 0, smem_len := 4 }) = Except.error (-12) ∧
    (freshShadow 7 { node := 0, smem_len := 4 }).colreg = [] :=
  ⟨rfl, rfl, rfl⟩

/-- C5 counterexample: stage geometry 640x480 and then 800x600 on a fresh
shadow and run the activation replay.  The replay performs zero hardware
mode-set applications (empty event list, state returned unchanged) and the
pending slot still holds 800x600 (not cleared) - refuting the claim that
activation applies the mode change exactly once with G2 and clears the
slot. -/
theorem setpar_replay_counterexample :
    (fb_ns_set_par ⟨800, 600⟩
        (fb_ns_set_par ⟨640, 480⟩
          (freshShadow 0 { node := 0, smem_len := 4 })).2).2.var
      = ⟨800, 600⟩ ∧
    (fb_ns_apply_setpar
        (fb_ns_set_par ⟨800, 600⟩
          (fb_ns_set_par ⟨640, 480⟩
            (freshShadow 0 { node := 0, smem_len := 4 })).2).2).2.2 = [] ∧
    (fb_ns_apply_setpar
        (fb_ns_set_par ⟨800, 600⟩
          (fb_ns_set_par ⟨640, 480⟩
            (freshShadow 0 { node := 0, smem_len := 4 })).2).2).2.1.var.xres
      = 800 ∧
    ([] : List FbEv) ≠ [FbEv.hwSetPar 800 600] ∧ (800 : Nat) ≠ 0 :=
  ⟨rfl, rfl, rfl, by decide, by decide⟩

/-- C5 (amended): staging geometry G1 and then G2 before activation retains
exactly the most recent geometry G2 (idempotent overwrite), but the
activation replay applies no mode change to hardware at all and leaves the
pending slot unchanged: `fb_ns_apply_setpar` returns 0 before its apply
logic, so the staged mode change is neither applied nor cleared. -/
theorem setpar_stage_idempotent_replay_disabled (s : FbNsInfo)
    (g1 g2 : FbVar) :
    ((fb_ns_set_par g2 (fb_ns_set_par g1 s).2).2).var = g2 ∧
    (∀ t : FbNsInfo, fb_ns_apply_setpar t = (0, t, [])) :=
  ⟨rfl, fun _ => rfl⟩

/-- C7: resolving the effective device returns the underlying hardware
device when the handle is a shadow whose owning namespace is active or is
the designated initial namespace, and returns the handle itself in every
other case - a shadow of an inactive non-initial namespace, or a handle that
is not a shadow at all. -/
theorem resolve_effective_device_routes (activeNs : Nat → Bool)
    (initNs d n : Nat) :
    ((activeNs d = true ∨ d = initNs) →
      fb_virt_to_info_ns activeNs initNs (.virt d n) = .info n) ∧
    (activeNs d = false → d ≠ initNs →
      fb_virt_to_info_ns activeNs initNs (.virt d n) = .virt d n) ∧
    fb_virt_to_info_ns activeNs initNs (.info n) = .info n := by
  refine ⟨?_, ?_, ?_⟩
  · intro h
    have hact : fb_virt_is_active activeNs initNs (.virt d n) = true := by
      rcases h with h | h <;> simp [fb_virt_is_active, h]
    simp [fb_virt_to_info_ns, hact, fb_virt_to_info]
  · intro h1 h2
    have hact : fb_virt_is_active activeNs initNs (.virt d n) = false := by
      simp [fb_virt_is_active, h1, h2]
    simp [fb_virt_to_info_ns, hact]
  · simp [fb_virt_to_info_ns, fb_virt_is_active]

/-- Witness for C7 at concrete inputs: the initial namespace resolves to the
hardware info, an inactive non-initial namespace keeps its shadow, a
non-shadow handle is returned as is. -/
theorem resolve_effective_device_routes_witness :
    fb_virt_to_info_ns (fun _ => false) 0 (.virt 0 3) = FbHandle.info 3 ∧
    fb_virt_to_info_ns (fun _ => false) 0 (.virt 1 3) = FbHandle.virt 1 3 ∧
    fb_virt_to_info_ns (fun _ => false) 0 (.info 3) = FbHandle.info 3 :=
  ⟨(resolve_effective_device_routes (fun _ => false) 0 0 3).1 (Or.inr rfl),
   (resolve_effective_device_routes (fun _ => false) 0 1 3).2.1 rfl
     (by decide),
   (resolve_effective_device_routes (fun _ => false) 0 1 3).2.2⟩

/-- C9: untracking a consumer that is not currently tracked fires the
`BUG_ON(!fb_inode)` fatal consistency abort (the mapping set is not
modified), and the lifecycle operations routed to a shadow -
`fb_ns_open`, `fb_ns_release`, `fb_ns_destroy` - are unconditional `BUG()`
aborts: none of these returns normally. -/
theorem untracked_untrack_and_lifecycle_bug (s : List FbInode) (nd : Nat)
    (h : find_fb_inode s nd = none) (hh : FbHandle) (u : Int) :
    untrack_fb_inode s (some nd) = ⟨true, true, s⟩ ∧
    fb_ns_open hh u = FbBug.bug ∧
    fb_ns_release hh u = FbBug.bug ∧
    fb_ns_destroy hh = FbBug.bug := by
  refine ⟨?_, rfl, rfl, rfl⟩
  simp [untrack_fb_inode, findFbInodeIdx_none_of_find_none s nd h]

/-- Witness for C9: inode 5 is not tracked in a set holding only inode 9;
untracking it faults, and the lifecycle entry points fault. -/
theorem untracked_untrack_and_lifecycle_bug_witness :
    find_fb_inode [⟨9, 1⟩] 5 = none ∧
    untrack_fb_inode [⟨9, 1⟩] (some 5) = ⟨true, true, [⟨9, 1⟩]⟩ ∧
    fb_ns_open (.info 0) 0 = FbBug.bug :=
  ⟨by decide,
   (untracked_untrack_and_lifecycle_bug [⟨9, 1⟩] 5 (by decide)
     (.info 0) 0).1,
   (untracked_untrack_and_lifecycle_bug [⟨9, 1⟩] 5 (by decide)
     (.info 0) 0).2.1⟩

/-- C10: untracking a null consumer handle is a silent no-op: the function
returns before `fb_ns_mutex` is taken (`lockTaken = false`), fires no fault,
and leaves the mapping set untouched - in contrast with the fatal abort for
an untracked non-null consumer. -/
theorem untrack_null_inode_noop (s : List FbInode) :
    untrack_fb_inode s none = ⟨false, false, s⟩ := rfl

/-- C1 counterexample: one tracked consumer (inode 5), a 2-byte hardware
buffer [3,4] and backing buffer [1,2], no pending palette or mode state, all
remaps succeeding.  The executed activate trace is
[remap 5, copyToHw]: the mapping re-point precedes the buffer copy, so the
claimed order (first copy, then re-point, then drain) is violated. -/
theorem activate_order_counterexample :
    (do_fb_activate_ns (fun _ => 0) (fun _ => 0) (some [3, 4])
        { id := 0, node := 0, count := 1, smem_len := 2, var := ⟨0, 0⟩,
          colreg := [], colreg_len := 0, vmem_buf := some [1, 2],
          inodes := [⟨5, 1⟩] } true).evs = [FbEv.remap 5, FbEv.copyToHw] ∧
    activateOrderClaimC1 [FbEv.remap 5, FbEv.copyToHw] = false :=
  ⟨rfl, rfl⟩

/-- C1 (amended): when the re-point phase does not report an error, the
activate transition performs its steps in this order: first re-point every
tracked consumer mapping (one remap event per tracked inode, in order), then
copy the backing buffer contents into the hardware buffer (at most one copy
event, and towards hardware), and only then drain the Pending-State Buffer
(the palette replay events; the mode replay emits nothing). -/
theorem activate_order_amended (remapRet : Nat → Int)
    (scRet : FbColreg → Int) (hwScreen : Option (List Nat)) (s : FbNsInfo)
    (hok : ¬(fb_ns_swap_mmap remapRet s).1 < 0) :
    (do_fb_activate_ns remapRet scRet hwScreen s true).evs =
      s.inodes.map (fun nd => FbEv.remap nd.inode)
        ++ (fb_ns_swap_vmem hwScreen s true).evs
        ++ s.colreg.map
            (fun c => FbEv.hwSetcolreg c.regno c.red c.green c.blue c.transp) ∧
    ((fb_ns_swap_vmem hwScreen s true).evs = []
      ∨ (fb_ns_swap_vmem hwScreen s true).evs = [FbEv.copyToHw]) := by
  constructor
  · have hok2 : ¬(swapMmapGo remapRet s.inodes 0).1 < 0 := hok
    simp [do_fb_activate_ns, hok2, fb_ns_apply_colreg, fb_ns_apply_setpar,
      fb_ns_swap_mmap, swapMmapGo_evs, applyColregGo_evs]
  · rcases hhw : hwScreen with _ | hs <;> rcases hv : s.vmem_buf with _ | vs
    · left; simp [fb_ns_swap_vmem, hv]
    · left; simp [fb_ns_swap_vmem, hv]
    · left; simp [fb_ns_swap_vmem, hv]
    · by_cases hz : s.smem_len = 0
      · left; simp [fb_ns_swap_vmem, hv, hz]
      · right; simp [fb_ns_swap_vmem, hv, hz]

/-- Witness for C1 (amended): a shadow with one tracked consumer, no
buffers, nothing staged, all remaps succeeding. -/
theorem activate_order_amended_witness :
    ¬(fb_ns_swap_mmap (fun _ => 0)
        { freshShadow 0 { node := 0, smem_len := 0 } with
            inodes := [⟨5, 1⟩] }).1 < 0 ∧
    ((do_fb_activate_ns (fun _ => 0) (fun _ => 0) none
        { freshShadow 0 { node := 0, smem_len := 0 } with
            inodes := [⟨5, 1⟩] } true).evs =
      ({ freshShadow 0 { node := 0, smem_len := 0 } with
          inodes := [⟨5, 1⟩] } : FbNsInfo).inodes.map
            (fun nd => FbEv.remap nd.inode)
        ++ (fb_ns_swap_vmem none
              { freshShadow 0 { node := 0, smem_len := 0 } with
                  inodes := [⟨5, 1⟩] } true).evs
        ++ ({ freshShadow 0 { node := 0, smem_len := 0 } with
                inodes := [⟨5, 1⟩] } : FbNsInfo).colreg.map
              (fun c => FbEv.hwSetcolreg c.regno c.red c.green c.blue c.transp) ∧
      ((fb_ns_swap_vmem none
          { freshShadow 0 { node := 0, smem_len := 0 } with
              inodes := [⟨5, 1⟩] } true).evs = []
        ∨ (fb_ns_swap_vmem none
            { freshShadow 0 { node := 0, smem_len := 0 } with
                inodes := [⟨5, 1⟩] } true).evs = [FbEv.copyToHw])) :=
  ⟨by decide,
   activate_order_amended (fun _ => 0) (fun _ => 0) none
     { freshShadow 0 { node := 0, smem_len := 0 } with inodes := [⟨5, 1⟩] }
     (by decide)⟩

/-- C6 counterexample: two tracked consumers (inodes 5 and 7) whose remaps
fail with -5 and -7 respectively, non-degenerate buffers and one staged
palette entry.  The re-point phase surfaces -7, the LAST failure (not the
first, -5), and the switch aborts right after it: the hardware buffer is
untouched and the trace holds only the two remap attempts - no buffer copy
and no palette replay ran, contradicting the claim that they still run and
that the first failure is surfaced. -/
theorem swap_failure_counterexample :
    (fb_ns_swap_mmap (fun nd => if nd = 5 then (-5 : Int) else -7)
        { id := 0, node := 0, count := 1, smem_len := 2, var := ⟨0, 0⟩,
          colreg := [⟨3, 255, 0, 0, 255⟩], colreg_len := 256,
          vmem_buf := some [1, 2],
          inodes := [⟨5, 1⟩, ⟨7, 1⟩] }).1 = -7 ∧
    ((-7 : Int) ≠ -5) ∧
    do_fb_activate_ns (fun nd => if nd = 5 then (-5 : Int) else -7)
        (fun _ => 0) (some [3, 4])
        { id := 0, node := 0, count := 1, smem_len := 2, var := ⟨0, 0⟩,
          colreg := [⟨3, 255, 0, 0, 255⟩], colreg_len := 256,
          vmem_buf := some [1, 2],
          inodes := [⟨5, 1⟩, ⟨7, 1⟩] } true =
      ⟨-7, some [3, 4],
        { id := 0, node := 0, count := 1, smem_len := 2, var := ⟨0, 0⟩,
          colreg := [⟨3, 255, 0, 0, 255⟩], colreg_len := 256,
          vmem_buf := some [1, 2],
          inodes := [⟨5, 1⟩, ⟨7, 1⟩] },
        [FbEv.remap 5, FbEv.remap 7]⟩ ∧
    FbEv.copyToHw ∉ [FbEv.remap 5, FbEv.remap 7] ∧
    FbEv.hwSetcolreg 3 255 0 0 255 ∉ [FbEv.remap 5, FbEv.remap 7] :=
  ⟨rfl, by decide, rfl, by decide, by decide⟩

/-- C6 (amended): a re-point failure for one consumer does not stop the
re-point phase - every tracked consumer is attempted in order regardless of
earlier failures - but the error code the phase surfaces is the LAST failure
encountered (the accumulator is overwritten on every failure), and when the
phase reports an error the device switch returns it at once: the buffer
copy and the pending-state replay are skipped and the state is unchanged. -/
theorem swap_failure_amended (remapRet : Nat → Int) (s : FbNsInfo) :
    (fb_ns_swap_mmap remapRet s).2 =
      s.inodes.map (fun nd => FbEv.remap nd.inode) ∧
    ((∀ nd ∈ s.inodes, remapRet nd.inode ≤ 0) →
      (fb_ns_swap_mmap remapRet s).1 =
        lastNegOr 0 (s.inodes.map fun nd => remapRet nd.inode)) ∧
    (∀ (scRet : FbColreg → Int) (hwScreen : Option (List Nat))
        (activate : Bool),
      (fb_ns_swap_mmap remapRet s).1 < 0 →
      do_fb_activate_ns remapRet scRet hwScreen s activate =
        ⟨(fb_ns_swap_mmap remapRet s).1, hwScreen, s,
         (fb_ns_swap_mmap remapRet s).2⟩) := by
  refine ⟨?_, ?_, ?_⟩
  · simp [fb_ns_swap_mmap, swapMmapGo_evs]
  · intro h
    simpa [fb_ns_swap_mmap] using swapMmapGo_err remapRet s.inodes 0 h
  · intro scRet hwScreen activate hneg
    simp [do_fb_activate_ns, hneg]

/-- Witness for C6 (amended): one consumer failing with -5. -/
theorem swap_failure_amended_witness :
    (∀ nd ∈ ({ freshShadow 0 { node := 0, smem_len := 0 } with
        inodes := [⟨5, 1⟩] } : FbNsInfo).inodes,
      (fun _ : Nat => (-5 : Int)) nd.inode ≤ 0) ∧
    (fb_ns_swap_mmap (fun _ => -5)
        { freshShadow 0 { node := 0, smem_len := 0 } with
            inodes := [⟨5, 1⟩] }).1 =
      lastNegOr 0
        (({ freshShadow 0 { node := 0, smem_len := 0 } with
            inodes := [⟨5, 1⟩] } : FbNsInfo).inodes.map
          fun nd => (fun _ : Nat => (-5 : Int)) nd.inode) ∧
    (fb_ns_swap_mmap (fun _ => (-5 : Int))
        { freshShadow 0 { node := 0, smem_len := 0 } with
            inodes := [⟨5, 1⟩] }).1 < 0 ∧
    do_fb_activate_ns (fun _ => -5) (fun _ => 0) none
        { freshShadow 0 { node := 0, smem_len := 0 } with
            inodes := [⟨5, 1⟩] } false =
      ⟨(fb_ns_swap_mmap (fun _ => -5)
          { freshShadow 0 { node := 0, smem_len := 0 } with
              inodes := [⟨5, 1⟩] }).1, none,
        { freshShadow 0 { node := 0, smem_len := 0 } with
            inodes := [⟨5, 1⟩] },
        (fb_ns_swap_mmap (fun _ => -5)
          { freshShadow 0 { node := 0, smem_len := 0 } with
              inodes := [⟨5, 1⟩] }).2⟩ :=
  ⟨by decide,
   (swap_failure_amended (fun _ => -5)
     { freshShadow 0 { node := 0, smem_len := 0 } with
         inodes := [⟨5, 1⟩] }).2.1 (by decide),
   by decide,
   (swap_failure_amended (fun _ => -5)
     { freshShadow 0 { node := 0, smem_len := 0 } with
         inodes := [⟨5, 1⟩] }).2.2 (fun _ => 0) none false (by decide)⟩

/-- C8: for a shadow whose recorded buffer length is zero, or whose hardware
or backing buffer base is absent, both the deactivate and the activate
transitions perform no content copy in either direction and leave both
buffer contents unchanged (the source guard returns before any buffer
dereference, so the copy path - the only faulting path - is not reached). -/
theorem degenerate_buffers_no_copy (remapRet : Nat → Int)
    (scRet : FbColreg → Int) (hwScreen : Option (List Nat)) (s : FbNsInfo)
    (activate : Bool)
    (h : s.smem_len = 0 ∨ hwScreen = none ∨ s.vmem_buf = none) :
    (do_fb_activate_ns remapRet scRet hwScreen s activate).hwScreen
      = hwScreen ∧
    (do_fb_activate_ns remapRet scRet hwScreen s activate).s.vmem_buf
      = s.vmem_buf ∧
    FbEv.copyToHw ∉ (do_fb_activate_ns remapRet scRet hwScreen s activate).evs ∧
    FbEv.copyFromHw ∉ (do_fb_activate_ns remapRet scRet hwScreen s activate).evs := by
  have hv := fb_ns_swap_vmem_degenerate hwScreen s activate h
  by_cases hm : (swapMmapGo remapRet s.inodes 0).1 < 0
  · refine ⟨?_, ?_, ?_, ?_⟩ <;>
      simp [do_fb_activate_ns, hm, fb_ns_swap_mmap, swapMmapGo_evs]
  · cases activate with
    | true =>
        refine ⟨?_, ?_, ?_, ?_⟩ <;>
          simp [do_fb_activate_ns, hm, hv, fb_ns_apply_colreg,
            fb_ns_apply_setpar, fb_ns_swap_mmap, swapMmapGo_evs,
            applyColregGo_evs]
    | false =>
        refine ⟨?_, ?_, ?_, ?_⟩ <;>
          simp [do_fb_activate_ns, hm, hv, fb_ns_swap_mmap, swapMmapGo_evs]

/-- Witness for C8: an absent hardware base with a present backing buffer,
activation direction. -/
theorem degenerate_buffers_no_copy_witness :
    (({ freshShadow 0 { node := 0, smem_len := 2 } with
        vmem_buf := some [1, 2] } : FbNsInfo).smem_len = 0 ∨
      (none : Option (List Nat)) = none ∨
      ({ freshShadow 0 { node := 0, smem_len := 2 } with
          vmem_buf := some [1, 2] } : FbNsInfo).vmem_buf = none) ∧
    (do_fb_activate_ns (fun _ => 0) (fun _ => 0) none
        { freshShadow 0 { node := 0, smem_len := 2 } with
            vmem_buf := some [1, 2] } true).hwScreen = none ∧
    (do_fb_activate_ns (fun _ => 0) (fun _ => 0) none
        { freshShadow 0 { node := 0, smem_len := 2 } with
            vmem_buf := some [1, 2] } true).s.vmem_buf = some [1, 2] :=
  ⟨Or.inr (Or.inl rfl),
   (degenerate_buffers_no_copy (fun _ => 0) (fun _ => 0) none
     { freshShadow 0 { node := 0, smem_len := 2 } with
         vmem_buf := some [1, 2] } true (Or.inr (Or.inl rfl))).1,
   (degenerate_buffers_no_copy (fun _ => 0) (fun _ => 0) none
     { freshShadow 0 { node := 0, smem_len := 2 } with
         vmem_buf := some [1, 2] } true (Or.inr (Or.inl rfl))).2.1⟩

/-- C2: starting from an empty table slot for the hardware device, two
acquires with no intervening release return the same shadow object (the one
allocated by the first call, same identity) with its reference count 1 after
the first call and 2 after the second; two releases then drop the count to
zero, at which point the slot is cleared (the shadow is unreachable from the
table) and the free path runs - vfree of the backing buffer and kfree of
the staged palette storage included. -/
theorem acquire_release_refcount (ns0 : FbDevNs) (hw : HwFb) (n0 : Nat)
    (hempty : ns0.fb hw.node = none) :
    (get_fb_info_ns ns0 n0 true hw).2.2 =
      Except.ok { freshShadow n0 hw with count := 1 } ∧
    (get_fb_info_ns (get_fb_info_ns ns0 n0 true hw).1
        (get_fb_info_ns ns0 n0 true hw).2.1 true hw).2.2 =
      Except.ok { freshShadow n0 hw with count := 2 } ∧
    (get_fb_info_ns (get_fb_info_ns ns0 n0 true hw).1
        (get_fb_info_ns ns0 n0 true hw).2.1 true hw).1.fb hw.node =
      some { freshShadow n0 hw with count := 2 } ∧
    (put_fb_info_ns
        (get_fb_info_ns (get_fb_info_ns ns0 n0 true hw).1
          (get_fb_info_ns ns0 n0 true hw).2.1 true hw).1 hw.node).2 = [] ∧
    (put_fb_info_ns
        (get_fb_info_ns (get_fb_info_ns ns0 n0 true hw).1
          (get_fb_info_ns ns0 n0 true hw).2.1 true hw).1 hw.node).1.fb
        hw.node =
      some { freshShadow n0 hw with count := 1 } ∧
    (put_fb_info_ns
        (put_fb_info_ns
          (get_fb_info_ns (get_fb_info_ns ns0 n0 true hw).1
            (get_fb_info_ns ns0 n0 true hw).2.1 true hw).1 hw.node).1
        hw.node).1.fb hw.node = none ∧
    (put_fb_info_ns
        (put_fb_info_ns
          (get_fb_info_ns (get_fb_info_ns ns0 n0 true hw).1
            (get_fb_info_ns ns0 n0 true hw).2.1 true hw).1 hw.node).1
        hw.node).2 =
      fb_ns_info_free { freshShadow n0 hw with count := 1 } ∧
    LifeEv.vfreeVmem ∈
      fb_ns_info_free { freshShadow n0 hw with count := 1 } ∧
    LifeEv.kfreeColreg ∈
      fb_ns_info_free { freshShadow n0 hw with count := 1 } := by
  have h1 : get_fb_info_ns ns0 n0 true hw =
      (⟨fun j => if j = hw.node then
          some { freshShadow n0 hw with count := 1 } else ns0.fb j⟩,
       n0 + 1, Except.ok { freshShadow n0 hw with count := 1 }) := by
    unfold get_fb_info_ns
    rw [hempty]
    rfl
  have hslot1 :
      (FbDevNs.mk (fun j => if j = hw.node then
          some { freshShadow n0 hw with count := 1 } else ns0.fb j)).fb
        hw.node = some { freshShadow n0 hw with count := 1 } := by
    simp
  have h2 : get_fb_info_ns
      (⟨fun j => if j = hw.node then
          some { freshShadow n0 hw with count := 1 } else ns0.fb j⟩ :
        FbDevNs) (n0 + 1) true hw =
      (⟨fun j => if j = hw.node then
          some { freshShadow n0 hw with count := 2 }
        else (FbDevNs.mk (fun j => if j = hw.node then
          some { freshShadow n0 hw with count := 1 } else ns0.fb j)).fb j⟩,
       n0 + 1, Except.ok { freshShadow n0 hw with count := 2 }) := by
    unfold get_fb_info_ns
    rw [hslot1]
    rfl
  have hslot2 :
      (FbDevNs.mk (fun j => if j = hw.node then
          some { freshShadow n0 hw with count := 2 }
        else (FbDevNs.mk (fun j => if j = hw.node then
          some { freshShadow n0 hw with count := 1 } else ns0.fb j)).fb j)).fb
        hw.node = some { freshShadow n0 hw with count := 2 } := by
    simp
  have h3 : put_fb_info_ns
      (⟨fun j => if j = hw.node then
          some { freshShadow n0 hw with count := 2 }
        else (FbDevNs.mk (fun j => if j = hw.node then
          some { freshShadow n0 hw with count := 1 } else ns0.fb j)).fb j⟩ :
        FbDevNs) hw.node =
      (⟨fun j => if j = hw.node then
          some { freshShadow n0 hw with count := 1 }
        else (FbDevNs.mk (fun j => if j = hw.node then
          some { freshShadow n0 hw with count := 2 }
        else (FbDevNs.mk (fun j => if j = hw.node then
          some { freshShadow n0 hw with count := 1 } else ns0.fb j)).fb j)).fb
          j⟩, []) := by
    unfold put_fb_info_ns
    rw [hslot2]
    rfl
  have hslot3 :
      (FbDevNs.mk (fun j => if j = hw.node then
          some { freshShadow n0 hw with count := 1 }
        else (FbDevNs.mk (fun j => if j = hw.node then
          some { freshShadow n0 hw with count := 2 }
        else (FbDevNs.mk (fun j => if j = hw.node then
          some { freshShadow n0 hw with count := 1 } else ns0.fb j)).fb j)).fb
          j)).fb hw.node =
        some { freshShadow n0 hw with count := 1 } := by
    simp
  have h4 : put_fb_info_ns
      (⟨fun j => if j = hw.node then
          some { freshShadow n0 hw with count := 1 }
        else (FbDevNs.mk (fun j => if j = hw.node then
          some { freshShadow n0 hw with count := 2 }
        else (FbDevNs.mk (fun j => if j = hw.node then
          some { freshShadow n0 hw with count := 1 } else ns0.fb j)).fb j)).fb
          j⟩ : FbDevNs) hw.node =
      (⟨fun j => if j = hw.node then none
        else (FbDevNs.mk (fun j => if j = hw.node then
          some { freshShadow n0 hw with count := 1 }
        else (FbDevNs.mk (fun j => if j = hw.node then
          some { freshShadow n0 hw with count := 2 }
        else (FbDevNs.mk (fun j => if j = hw.node then
          some { freshShadow n0 hw with count := 1 } else ns0.fb j)).fb j)).fb
          j)).fb j⟩,
       fb_ns_info_free { freshShadow n0 hw with count := 1 }) := by
    unfold put_fb_info_ns
    rw [hslot3]
    rfl
  rw [h1]
  simp [h2, h3, h4, fb_ns_info_free]

/-- Witness for C2: an entirely empty table, hardware device 0 with a
4-byte buffer. -/
theorem acquire_release_refcount_witness :
    (FbDevNs.mk (fun _ => none)).fb 0 = none ∧
    (get_fb_info_ns ⟨fun _ => none⟩ 0 true
        { node := 0, smem_len := 4 }).2.2 =
      Except.ok
        { freshShadow 0 { node := 0, smem_len := 4 } with count := 1 } ∧
    (put_fb_info_ns
        (put_fb_info_ns
          (get_fb_info_ns (get_fb_info_ns ⟨fun _ => none⟩ 0 true
              { node := 0, smem_len := 4 }).1
            (get_fb_info_ns ⟨fun _ => none⟩ 0 true
              { node := 0, smem_len := 4 }).2.1 true
            { node := 0, smem_len := 4 }).1 0).1 0).1.fb 0 = none :=
  ⟨rfl,
   (acquire_release_refcount ⟨fun _ => none⟩ { node := 0, smem_len := 4 } 0
     rfl).1,
   (acquire_release_refcount ⟨fun _ => none⟩ { node := 0, smem_len := 4 } 0
     rfl).2.2.2.2.2.1⟩

end FbNs
